import Mathlib

/-!
Verification of the land-cover change-detection engine
(`ChangeDetection.py`, `LandscapeChange.py`).

The raster side is out of scope; what is embedded here is the pure rule
logic that the scripts run over attribute-table rows: the combined-code
encoder, the cross-product transition table, the six-class reclass rules
of `change_summary`, the target-collapse rules of `change_to_from`, and
the area / percentage field calculations.  Machine integers are modelled
as `Nat`, Python floats as `ℚ`, and Python exceptions as `Except`.
-/

/-- A raster category: a `Value` together with its `CoverClass` name,
as read from a classified raster's attribute table. -/
structure Category where
  value : ℕ
  name : String
deriving DecidableEq

/-- Combined-code encoder, from `change_rast`: `Int((t1*100) + t2)`
(also `int(c[0]*100) + int(i[0])` when building the table). -/
def encode (s e : ℕ) : ℕ := s * 100 + e

/-- Modelled from the spec: `CodeEncoder.decode` (§4.1).  The source never
decodes a combined code (it only encodes with `t1*100 + t2`); the spec
defines `decode(code) = (code div BASE, code mod BASE)` with `BASE = 100`. -/
def decode (c : ℕ) : ℕ × ℕ := (c / 100, c % 100)

/-- One row of the transition table built in `change_rast`:
`[int(c[0]*100) + int(i[0]), c, i]`. -/
structure TransitionRow where
  code : ℕ
  startCat : Category
  endCat : Category
deriving DecidableEq

/-- The transition table of `change_rast` lines 35-37: for every class `c`
of the time-1 raster and every class `i` of the time-2 raster (in that
nesting order) one row with the combined code. -/
def buildCross (cls_t1 cls_t2 : List Category) : List TransitionRow :=
  cls_t1.flatMap (fun c => cls_t2.map (fun i => ⟨encode c.value i.value, c, i⟩))

/-- The six-class reclass rule chain of `change_summary` lines 86-105,
evaluated top-down with the first matching branch winning. -/
def change_summary_reclass (start_cls end_cls : List ℕ) (backwards : Bool)
    (sc ec : ℕ) : ℕ :=
  let comb := start_cls ++ end_cls
  if sc ∈ start_cls ∧ ec ∈ start_cls then 1
  else if sc ∈ start_cls ∧ ec ∈ end_cls then 2
  else if sc ∈ start_cls ∧ ec ∉ comb then 3
  else if sc ∈ end_cls ∧ ec ∈ start_cls then 4
  else if sc ∉ comb ∧ ec ∈ start_cls then (if backwards then 5 else 4)
  else 0

/-- Fuel-driven helper for `decLen`; the fuel starts at `n` itself, which
bounds the number of divisions by 10. -/
def decLenAux : ℕ → ℕ → ℕ
  | 0, _ => 1
  | fuel + 1, n => if n < 10 then 1 else decLenAux fuel (n / 10) + 1

/-- Number of decimal digits of `n`, i.e. the length of Python's `str(n)`
for a non-negative integer. -/
def decLen (n : ℕ) : ℕ := decLenAux n n

/-- Python's `int(str(a) + str(b))`: decimal-digit concatenation, as used
by `change_to_from` in `int(repl + str(ec))` and `int(str(sc) + repl)`. -/
def strConcat (a b : ℕ) : ℕ := a * 10 ^ decLen b + b

/-- One updated row of the `tmp_tab` table in `change_to_from`
(fields `start_class, start_class_name, end_class, end_class_name,
reclass, change_type`). -/
structure TFRow where
  start_class : ℕ
  start_class_name : String
  end_class : ℕ
  end_class_name : String
  reclass : ℕ
  change_type : String
deriving DecidableEq

/-- The row update of `change_to_from` lines 162-192.  `repl` is
`str(start_cls[0])`; on an empty `start_cls` the Python indexing raises,
modelled as `none`.  Transitions out of the target rewrite the start
field to `repl` and build `int(repl + str(ec))`; transitions into the
target rewrite the end field and build `int(str(sc) + repl)`. -/
def change_to_from_row (start_cls : List ℕ) (start_cls_nm : String)
    (sc : ℕ) (scn : String) (ec : ℕ) (ecn : String) : Option TFRow :=
  match start_cls with
  | [] => none
  | repl :: rest =>
    if sc ∈ repl :: rest then
      if ec ∈ repl :: rest then
        some ⟨sc, scn, ec, ecn, 1, start_cls_nm ++ " both time periods"⟩
      else
        some ⟨repl, start_cls_nm, ec, ecn, strConcat repl ec,
              start_cls_nm ++ " to " ++ ecn⟩
    else
      if ec ∈ repl :: rest then
        some ⟨sc, scn, repl, start_cls_nm, strConcat sc repl,
              scn ++ " to " ++ start_cls_nm⟩
      else
        some ⟨sc, scn, ec, ecn, 0, "Not " ++ start_cls_nm ++ " either time period"⟩

/-- The collapsed (`reclass`) code assigned by `change_to_from` to the
pair `(sc, ec)`; names do not influence it. -/
def change_to_from_reclass (start_cls : List ℕ) (sc ec : ℕ) : Option ℕ :=
  (change_to_from_row start_cls "" sc "" ec "").map TFRow.reclass

/-- One row of a raster attribute (frequency) table: a raster `Value`
and its pixel `Count`. -/
structure FreqRow where
  value : ℕ
  count : ℕ
deriving DecidableEq

/-- Sum of the `Count` column, as in
`sum([int(a[0]) for a in arcpy.da.SearchCursor(..., ["Count"])])`. -/
def totalCount (tab : List FreqRow) : ℕ := (tab.map FreqRow.count).sum

/-- Error raised while evaluating a field-calculator expression: Python's
`ZeroDivisionError`, raised by `!Count! / 0`. -/
inductive CalcError
  | zeroDivision
deriving DecidableEq

/-- CalculateField of `"(!Count! / total) * 100"` evaluated row by row;
when `total = 0` Python raises `ZeroDivisionError` at the first row it
evaluates, and over an empty row set nothing is evaluated at all. -/
def calcPercent (total : ℕ) : List FreqRow → Except CalcError (List ℚ)
  | [] => Except.ok []
  | r :: rest =>
    if total = 0 then Except.error CalcError.zeroDivision
    else
      match calcPercent total rest with
      | Except.error e => Except.error e
      | Except.ok l => Except.ok ((r.count : ℚ) / (total : ℚ) * 100 :: l)

/-- The `area_ha` field calculation `"(!Count! * 900) / 10000"`
(`change_rast` line 55, `change_summary` line 133, `change_to_from`
line 203), applied to a whole frequency table. -/
def calc_area_ha (tab : List FreqRow) : List ℚ :=
  tab.map (fun r => ((r.count : ℚ) * 900) / 10000)

/-- The `perc_total` field of `change_rast` lines 56-57: percent of the
whole-table total. -/
def calc_perc_total (tab : List FreqRow) : Except CalcError (List ℚ) :=
  calcPercent (totalCount tab) tab

/-- Percent of a filtered subset: `change_summary` lines 135-137 build a
table view from a where-clause, sum its counts, and calculate the
percent field over that same view only. -/
def perc_of_subset (tab : List FreqRow) (pred : ℕ → Bool) :
    Except CalcError (List ℚ) :=
  let sub := tab.filter (fun r => pred r.value)
  calcPercent (totalCount sub) sub

/-- The `perc_of_t1_area` step of `change_summary` with its literal
where-clause `"Value IN (1, 2, 3)"`. -/
def perc_of_t1_area (tab : List FreqRow) : Except CalcError (List ℚ) :=
  perc_of_subset tab (fun v => v = 1 || v = 2 || v = 3)

/-- The `area_ha` formula of `change_rast` line 55 for a single count. -/
def change_rast_area_ha (count : ℕ) : ℚ := ((count : ℚ) * 900) / 10000

/-- The `area_ha` formula of `change_summary` line 133 for a single count. -/
def change_summary_area_ha (count : ℕ) : ℚ := ((count : ℚ) * 900) / 10000

/-- The `area_ha` formula of `change_to_from` line 203 for a single count. -/
def change_to_from_area_ha (count : ℕ) : ℚ := ((count : ℚ) * 900) / 10000

/-- The hectares formula `"!Count!*0.09"` of `tabLcTypes`
(`LandscapeChange.py` line 127) for a single count. -/
def tabLcTypes_area_ha (count : ℕ) : ℚ := (count : ℚ) * (9 / 100)

/-- One annotated row of the change raster's attribute table
(`change_rast` fields). -/
structure AttrRow where
  value : ℕ
  start_class : ℕ
  start_class_name : String
  end_class : ℕ
  end_class_name : String
  change_type : String
deriving DecidableEq

/-- Error raised by the attribute loop of `change_rast`: Python's
`IndexError` (a subclass of `LookupError`) from
`[i for i in cls if i[0] == r[0]][0]` when no transition row matches. -/
inductive RastError
  | lookupError
deriving DecidableEq

/-- The attribute-calculation loop of `change_rast` lines 45-53: each
raster value is looked up in the transition table by a linear scan whose
first hit is taken; a value with no hit raises. -/
def annotate_rows (cls : List TransitionRow) : List ℕ → Except RastError (List AttrRow)
  | [] => Except.ok []
  | v :: rest =>
    match (cls.filter (fun i => i.code = v)).head? with
    | none => Except.error RastError.lookupError
    | some t =>
      match annotate_rows cls rest with
      | Except.error e => Except.error e
      | Except.ok l =>
        Except.ok ({ value := v
                     start_class := t.startCat.value
                     start_class_name := t.startCat.name
                     end_class := t.endCat.value
                     end_class_name := t.endCat.name
                     change_type :=
                       if t.startCat.value ≠ t.endCat.value then
                         t.startCat.name ++ " to " ++ t.endCat.name
                       else "No change" } :: l)

/-- When the denominator is nonzero the percent field calculation
succeeds on every row with the count/total*100 formula. -/
lemma calcPercent_ok (total : ℕ) (h : total ≠ 0) (tab : List FreqRow) :
    calcPercent total tab =
      Except.ok (tab.map (fun r => (r.count : ℚ) / (total : ℚ) * 100)) := by
  induction tab with
  | nil => rfl
  | cons r rest ih => simp [calcPercent, h, ih]

/-- C1: for the six-class scheme with startSet = {4}, endSet = {2},
backwards = false, the pairs (4,4), (4,2), (4,7), (2,4), (9,4), (9,9)
are assigned classes 1, 2, 3, 4, 4, 0 respectively, by the first-match
rule chain. -/
theorem c1_six_class_example :
    change_summary_reclass [4] [2] false 4 4 = 1 ∧
    change_summary_reclass [4] [2] false 4 2 = 2 ∧
    change_summary_reclass [4] [2] false 4 7 = 3 ∧
    change_summary_reclass [4] [2] false 2 4 = 4 ∧
    change_summary_reclass [4] [2] false 9 4 = 4 ∧
    change_summary_reclass [4] [2] false 9 9 = 0 := by
  decide

/-- C3: flipping only the backwards flag reroutes (9,4) from class 4 to
class 5, while (2,4) stays in class 4 under both flag values. -/
theorem c3_backwards_flag_difference :
    change_summary_reclass [4] [2] true 9 4 = 5 ∧
    change_summary_reclass [4] [2] false 9 4 = 4 ∧
    change_summary_reclass [4] [2] true 2 4 = 4 ∧
    change_summary_reclass [4] [2] false 2 4 = 4 := by
  decide

/-- C4: decoding the encoded pair recovers it whenever both category
values are below the base 100. -/
theorem c4_round_trip (s e : ℕ) (hs : s < 100) (he : e < 100) :
    decode (encode s e) = (s, e) := by
  simp only [decode, encode, Prod.mk.injEq]
  constructor <;> omega

/-- Witness for C4 at the concrete pair (41, 21). -/
theorem c4_round_trip_witness :
    41 < 100 ∧ 21 < 100 ∧ decode (encode 41 21) = (41, 21) :=
  ⟨by decide, by decide, c4_round_trip 41 21 (by decide) (by decide)⟩

/-- C2 counterexample: with targetSet = {4} the code computes the
collapsed code of (4,2) by string concatenation, giving 42, not
4*100+2 = 402; likewise (9,4) gives 94, not 904. -/
theorem c2_counterexample :
    change_to_from_reclass [4] 4 2 ≠ some (4 * 100 + 2) ∧
    change_to_from_reclass [4] 9 4 ≠ some (9 * 100 + 4) := by
  decide

/-- C6 counterexample: the area step takes no cell-area parameter; its
output is fixed by the baked-in 900 m², so with cellAreaM2 = 10000 the
claimed formula pixelCount * cellAreaM2 / 10000 (which would give 30)
disagrees with the computed row (2.7). -/
theorem c6_counterexample :
    calc_area_ha [⟨2, 30⟩] ≠ [(30 : ℚ) * 10000 / 10000] := by
  simp only [calc_area_ha, List.map_cons, List.map_nil, ne_eq, List.cons.injEq,
    and_true]
  norm_num

/-- C6 amended: the stats steps have the cell area fixed at 900 m²:
areaHectares is pixelCount * 900 / 10000 (= pixelCount * 0.09) and
percentOfTotal is pixelCount / total * 100; for the table
(1,10),(2,30),(3,60) the code-2 row gets 2.7 ha and 30.0 percent. -/
theorem c6_stats_formulas (tab : List FreqRow) :
    calc_area_ha tab = tab.map (fun r => ((r.count : ℚ) * 900) / 10000) ∧
    (∀ r : FreqRow, ((r.count : ℚ) * 900) / 10000 = (r.count : ℚ) * (9 / 100)) ∧
    (totalCount tab ≠ 0 →
      calc_perc_total tab =
        Except.ok (tab.map (fun r => (r.count : ℚ) / (totalCount tab : ℚ) * 100))) ∧
    calc_area_ha [⟨1, 10⟩, ⟨2, 30⟩, ⟨3, 60⟩] = [9/10, 27/10, 27/5] ∧
    calc_perc_total [⟨1, 10⟩, ⟨2, 30⟩, ⟨3, 60⟩] = Except.ok [10, 30, 60] := by
  refine ⟨rfl, fun r => by ring, fun h => calcPercent_ok _ h _, ?_, ?_⟩
  · norm_num [calc_area_ha]
  · rw [calc_perc_total, calcPercent_ok _ (by decide)]
    norm_num [totalCount]

/-- Witness for C6 at the spec's example table, with a nonzero total. -/
theorem c6_stats_formulas_witness :
    totalCount [⟨1, 10⟩, ⟨2, 30⟩, ⟨3, 60⟩] ≠ 0 ∧
    calc_perc_total [⟨1, 10⟩, ⟨2, 30⟩, ⟨3, 60⟩] =
      Except.ok ([⟨1, 10⟩, ⟨2, 30⟩, ⟨3, 60⟩].map
        (fun r : FreqRow =>
          (r.count : ℚ) / (totalCount [⟨1, 10⟩, ⟨2, 30⟩, ⟨3, 60⟩] : ℚ) * 100)) :=
  ⟨by decide, (c6_stats_formulas [⟨1, 10⟩, ⟨2, 30⟩, ⟨3, 60⟩]).2.2.1 (by decide)⟩

/-- C7 counterexample: when no row matches the subset where-clause, the
percent step evaluates nothing: it returns an empty row set and raises
no error at all (so it does not fail with a DomainError). -/
theorem c7_counterexample :
    perc_of_t1_area [⟨5, 10⟩] = Except.ok [] ∧
    perc_of_t1_area [⟨5, 10⟩] ≠ Except.error CalcError.zeroDivision := by
  constructor
  · rfl
  · intro h
    exact Except.noConfusion h

/-- C7 amended: over a predicate matching no row, the subset-percent
step computes no value at all: the result is ok with an empty row list,
so no division is evaluated, no error is raised, and no 0 or NaN
percentage is ever produced. -/
theorem c7_empty_subset (tab : List FreqRow) (pred : ℕ → Bool)
    (h : ∀ r ∈ tab, pred r.value = false) :
    perc_of_subset tab pred = Except.ok [] := by
  have hf : tab.filter (fun r => pred r.value) = [] := by
    rw [List.filter_eq_nil_iff]
    intro r hr
    simp [h r hr]
  rw [perc_of_subset]
  simp only [hf]
  rfl

/-- Witness for C7: the value-5 row matches no element of (1,2,3). -/
theorem c7_empty_subset_witness :
    (∀ r ∈ [(⟨5, 10⟩ : FreqRow)], (r.value = 1 || r.value = 2 || r.value = 3) = false) ∧
    perc_of_subset [⟨5, 10⟩] (fun v => v = 1 || v = 2 || v = 3) = Except.ok [] :=
  ⟨by decide, c7_empty_subset [⟨5, 10⟩] (fun v => v = 1 || v = 2 || v = 3) (by decide)⟩

/-- The cross-product table has one row per pair of input classes. -/
lemma buildCross_length (t2 : List Category) :
    ∀ t1 : List Category, (buildCross t1 t2).length = t1.length * t2.length := by
  intro t1
  induction t1 with
  | nil => simp [buildCross]
  | cons c t ih =>
    rw [buildCross, List.flatMap_cons, List.length_append, List.length_map]
    rw [buildCross] at ih
    rw [ih, List.length_cons]
    ring

/-- With distinct class values below the base on both sides, the combined
codes of the cross-product table are pairwise distinct. -/
lemma buildCross_codes_nodup (t2 : List Category)
    (h2 : (t2.map Category.value).Nodup) (hb2 : ∀ c ∈ t2, c.value < 100) :
    ∀ t1 : List Category, (t1.map Category.value).Nodup →
      ((buildCross t1 t2).map TransitionRow.code).Nodup := by
  intro t1
  induction t1 with
  | nil =>
    intro _
    simp [buildCross]
  | cons c t ih =>
    intro h1
    rw [List.map_cons, List.nodup_cons] at h1
    rw [buildCross, List.flatMap_cons, List.map_append]
    rw [List.nodup_append]
    refine ⟨?_, ih h1.2, ?_⟩
    · rw [List.map_map]
      have hmm : ((fun r : TransitionRow => r.code) ∘
            fun i : Category => (⟨encode c.value i.value, c, i⟩ : TransitionRow)) =
          (fun v => c.value * 100 + v) ∘ Category.value := rfl
      rw [hmm, ← List.map_map]
      exact h2.map (fun a b hab => by omega)
    · intro x hx hx'
      rw [List.map_map, List.mem_map] at hx
      obtain ⟨i, hi, rfl⟩ := hx
      rw [List.mem_map] at hx'
      obtain ⟨r, hr, hrx⟩ := hx'
      rw [List.mem_flatMap] at hr
      obtain ⟨b, hbt, hbr⟩ := hr
      rw [List.mem_map] at hbr
      obtain ⟨j, hj, rfl⟩ := hbr
      have hiv := hb2 i hi
      have hjv := hb2 j hj
      simp only [Function.comp_apply, encode] at hrx
      have hcb : b.value = c.value := by omega
      exact h1.1 (List.mem_map.mpr ⟨b, hbt, hcb⟩)

/-- Rows of the cross-product table sit at start-major, end-minor
positions: the row for the i-th start class and j-th end class is entry
i * M + j. -/
lemma buildCross_get (t2 : List Category) :
    ∀ (t1 : List Category) (i j : ℕ) (ci cj : Category),
      t1[i]? = some ci → t2[j]? = some cj →
      (buildCross t1 t2)[i * t2.length + j]? =
        some ⟨encode ci.value cj.value, ci, cj⟩ := by
  intro t1
  induction t1 with
  | nil =>
    intro i j ci cj h _
    simp at h
  | cons c t ih =>
    intro i j ci cj hci hcj
    have hj : j < t2.length := by
      by_contra hjn
      rw [List.getElem?_eq_none (by omega)] at hcj
      cases hcj
    have hsplit : buildCross (c :: t) t2 =
        (t2.map fun e => (⟨encode c.value e.value, c, e⟩ : TransitionRow)) ++
          buildCross t t2 := by
      rw [buildCross, List.flatMap_cons]
      rfl
    cases i with
    | zero =>
      rw [List.getElem?_cons_zero, Option.some.injEq] at hci
      subst hci
      rw [hsplit, Nat.zero_mul, Nat.zero_add,
        List.getElem?_append_left (by simp [hj]), List.getElem?_map, hcj]
      rfl
    | succ i =>
      rw [List.getElem?_cons_succ] at hci
      have hidx : (i + 1) * t2.length + j = t2.length + (i * t2.length + j) := by
        ring
      rw [hsplit, hidx, List.getElem?_append_right (by simpa using Nat.le_add_right _ _)]
      rw [List.length_map, Nat.add_sub_cancel_left]
      exact ih i j ci cj hci hcj

/-- C5: the transition table over N start and M end categories (distinct
values, all below the base) has exactly N * M rows, pairwise-distinct
combined codes, and start-major end-minor insertion order: the row for
the i-th start class and j-th end class sits at position i * M + j. -/
theorem c5_transition_table (t1 t2 : List Category)
    (h1 : (t1.map Category.value).Nodup) (h2 : (t2.map Category.value).Nodup)
    (hb1 : ∀ c ∈ t1, c.value < 100) (hb2 : ∀ c ∈ t2, c.value < 100) :
    (buildCross t1 t2).length = t1.length * t2.length ∧
    ((buildCross t1 t2).map TransitionRow.code).Nodup ∧
    (∀ i j ci cj, t1[i]? = some ci → t2[j]? = some cj →
      (buildCross t1 t2)[i * t2.length + j]? =
        some ⟨encode ci.value cj.value, ci, cj⟩) :=
  ⟨buildCross_length t2 t1, buildCross_codes_nodup t2 h2 hb2 t1 h1,
   fun i j ci cj hci hcj => buildCross_get t2 t1 i j ci cj hci hcj⟩

/-- Witness for C5 on a 2 x 3 table: six rows, distinct codes, and the
row at position 1 * 3 + 2 = 5 pairs the second start class with the
third end class. -/
theorem c5_transition_table_witness :
    (buildCross [⟨4, "Natural"⟩, ⟨2, "Developed"⟩]
      [⟨4, "Natural"⟩, ⟨2, "Developed"⟩, ⟨7, "Water"⟩]).length = 2 * 3 ∧
    ((buildCross [⟨4, "Natural"⟩, ⟨2, "Developed"⟩]
      [⟨4, "Natural"⟩, ⟨2, "Developed"⟩, ⟨7, "Water"⟩]).map TransitionRow.code).Nodup ∧
    (buildCross [⟨4, "Natural"⟩, ⟨2, "Developed"⟩]
      [⟨4, "Natural"⟩, ⟨2, "Developed"⟩, ⟨7, "Water"⟩])[1 * 3 + 2]? =
        some ⟨encode 2 7, ⟨2, "Developed"⟩, ⟨7, "Water"⟩⟩ :=
  ⟨(c5_transition_table [⟨4, "Natural"⟩, ⟨2, "Developed"⟩]
      [⟨4, "Natural"⟩, ⟨2, "Developed"⟩, ⟨7, "Water"⟩]
      (by decide) (by decide) (by decide) (by decide)).1,
   (c5_transition_table [⟨4, "Natural"⟩, ⟨2, "Developed"⟩]
      [⟨4, "Natural"⟩, ⟨2, "Developed"⟩, ⟨7, "Water"⟩]
      (by decide) (by decide) (by decide) (by decide)).2.1,
   (c5_transition_table [⟨4, "Natural"⟩, ⟨2, "Developed"⟩]
      [⟨4, "Natural"⟩, ⟨2, "Developed"⟩, ⟨7, "Water"⟩]
      (by decide) (by decide) (by decide) (by decide)).2.2 1 2
      ⟨2, "Developed"⟩ ⟨7, "Water"⟩ (by decide) (by decide)⟩

/-- A number in the interval 10..99 has exactly two decimal digits. -/
lemma decLen_two_digits : ∀ n, n < 100 → 10 ≤ n → decLen n = 2 := by decide

/-- C2 amended: `change_to_from` builds collapsed codes by decimal-digit
concatenation `int(str(a) + str(b))`, not by targetValue * BASE + ec.
The two coincide exactly when the non-target value has two digits; with
targetSet = {4} the collapsed codes are 1, 42, 94 and 0. -/
theorem c2_collapse_rules (repl : ℕ) (rest : List ℕ) (sc ec : ℕ) :
    (sc ∈ repl :: rest → ec ∈ repl :: rest →
      change_to_from_reclass (repl :: rest) sc ec = some 1) ∧
    (sc ∈ repl :: rest → ec ∉ repl :: rest →
      change_to_from_reclass (repl :: rest) sc ec = some (strConcat repl ec)) ∧
    (sc ∉ repl :: rest → ec ∈ repl :: rest →
      change_to_from_reclass (repl :: rest) sc ec = some (strConcat sc repl)) ∧
    (sc ∉ repl :: rest → ec ∉ repl :: rest →
      change_to_from_reclass (repl :: rest) sc ec = some 0) ∧
    (10 ≤ ec → ec < 100 → strConcat repl ec = repl * 100 + ec) ∧
    change_to_from_reclass [4] 4 4 = some 1 ∧
    change_to_from_reclass [4] 4 2 = some 42 ∧
    change_to_from_reclass [4] 9 4 = some 94 ∧
    change_to_from_reclass [4] 9 9 = some 0 := by
  refine ⟨?_, ?_, ?_, ?_, ?_, by decide, by decide, by decide, by decide⟩
  · intro h1 h2
    simp [change_to_from_reclass, change_to_from_row, h1, h2]
  · intro h1 h2
    simp [change_to_from_reclass, change_to_from_row, h1, h2]
  · intro h1 h2
    simp [change_to_from_reclass, change_to_from_row, h1, h2]
  · intro h1 h2
    simp [change_to_from_reclass, change_to_from_row, h1, h2]
  · intro h10 h100
    rw [strConcat, decLen_two_digits ec h100 h10]
    norm_num

/-- Witness for C2's amended rules on a two-digit instance: the forest
value 42 leaving the target set (41, 42) for 21 gets code
4121 = concat(41, 21) = 41 * 100 + 21. -/
theorem c2_collapse_rules_witness :
    change_to_from_reclass [41, 42] 42 21 = some (strConcat 41 21) ∧
    strConcat 41 21 = 41 * 100 + 21 :=
  ⟨(c2_collapse_rules 41 [42] 42 21).2.1 (by decide) (by decide),
   (c2_collapse_rules 41 [42] 42 21).2.2.2.2.1 (by decide) (by decide)⟩

/-- C10: the collapse classification canonicalizes on the first listed
target value: whichever target value actually occurred, a transition
out of the target rewrites start_class to the first element and builds
the code from it (symmetrically for transitions in), and any
target-to-target pair gets code 1 even when the two values differ. -/
theorem c10_first_target_canonical (t0 tv : ℕ) (rest : List ℕ)
    (nm scn ecn : String) (sc ec : ℕ) :
    (sc ∈ t0 :: tv :: rest → ec ∈ t0 :: tv :: rest →
      change_to_from_row (t0 :: tv :: rest) nm sc scn ec ecn =
        some ⟨sc, scn, ec, ecn, 1, nm ++ " both time periods"⟩) ∧
    (sc ∈ t0 :: tv :: rest → ec ∉ t0 :: tv :: rest →
      change_to_from_row (t0 :: tv :: rest) nm sc scn ec ecn =
        some ⟨t0, nm, ec, ecn, strConcat t0 ec, nm ++ " to " ++ ecn⟩) ∧
    (sc ∉ t0 :: tv :: rest → ec ∈ t0 :: tv :: rest →
      change_to_from_row (t0 :: tv :: rest) nm sc scn ec ecn =
        some ⟨sc, scn, t0, nm, strConcat sc t0, scn ++ " to " ++ nm⟩) := by
  refine ⟨?_, ?_, ?_⟩
  · intro h1 h2
    simp [change_to_from_row, h1, h2]
  · intro h1 h2
    simp [change_to_from_row, h1, h2]
  · intro h1 h2
    simp [change_to_from_row, h1, h2]

/-- Witness for C10 with targetSet (41, 42): the pair (42, 21) is
rewritten to start at 41 with code concat(41, 21), and the differing
target pair (42, 41) still collapses to code 1. -/
theorem c10_first_target_canonical_witness :
    change_to_from_row [41, 42] "Forest" 42 "Evergreen" 21 "DevOpen" =
      some ⟨41, "Forest", 21, "DevOpen", strConcat 41 21,
            "Forest" ++ " to " ++ "DevOpen"⟩ ∧
    change_to_from_row [41, 42] "Forest" 42 "Evergreen" 41 "Deciduous" =
      some ⟨42, "Evergreen", 41, "Deciduous", 1,
            "Forest" ++ " both time periods"⟩ :=
  ⟨(c10_first_target_canonical 41 42 [] "Forest" "Evergreen" "DevOpen" 42 21).2.1
      (by decide) (by decide),
   (c10_first_target_canonical 41 42 [] "Forest" "Evergreen" "Deciduous" 42 41).1
      (by decide) (by decide)⟩

/-- C8: a raster value having no match in the transition table makes the
attribute loop of `change_rast` raise (IndexError, a LookupError); the
table is never silently completed with a default class. -/
theorem c8_missing_code_errors (cls : List TransitionRow) (vals : List ℕ) (v : ℕ)
    (hv : v ∈ vals) (hmiss : ∀ t ∈ cls, t.code ≠ v) :
    annotate_rows cls vals = Except.error RastError.lookupError := by
  induction vals with
  | nil => cases hv
  | cons w rest ih =>
    rcases List.mem_cons.mp hv with hvw | hvr
    · subst hvw
      have hf : cls.filter (fun i => i.code = v) = [] := by
        rw [List.filter_eq_nil_iff]
        intro t ht
        simp [hmiss t ht]
      simp [annotate_rows, hf]
    · have herr := ih hvr
      cases hh : (cls.filter (fun i => i.code = w)).head? with
      | none => simp [annotate_rows, hh]
      | some t => simp [annotate_rows, hh, herr]

/-- Witness for C8: the table built from classes (4) and (2) covers only
code 402, so the frequency value 999 raises the lookup error. -/
theorem c8_missing_code_errors_witness :
    (999 ∈ [402, 999]) ∧
    annotate_rows (buildCross [⟨4, "Natural"⟩] [⟨2, "Developed"⟩]) [402, 999] =
      Except.error RastError.lookupError :=
  ⟨by decide,
   c8_missing_code_errors (buildCross [⟨4, "Natural"⟩] [⟨2, "Developed"⟩])
     [402, 999] 999 (by decide) (by decide)⟩

/-- C9: every area computation in the scripts bakes in the 900 m² cell:
all four field calculations equal count * 900 / 10000, which is
count * 0.09; none of them takes a cell-area argument. -/
theorem c9_fixed_cell_area (n : ℕ) :
    change_rast_area_ha n = (n : ℚ) * 900 / 10000 ∧
    change_summary_area_ha n = (n : ℚ) * 900 / 10000 ∧
    change_to_from_area_ha n = (n : ℚ) * 900 / 10000 ∧
    tabLcTypes_area_ha n = (n : ℚ) * 900 / 10000 ∧
    (n : ℚ) * 900 / 10000 = (n : ℚ) * (9 / 100) := by
  refine ⟨rfl, rfl, rfl, ?_, by ring⟩
  rw [tabLcTypes_area_ha]
  ring
